import Mathlib

/-!
Shallow embedding of the FM-radio receiver session state machine from
fmradio/jni/android_fmradio_Receiver.cpp: the receiver transition-validity
table, the session record, the scan / full-scan worker protocol, the
scan-request controllers, the capability-gated query operations and the
vendor forced-reset handler.  Helpers that live in the shared layer
(android_fmradio.h / android_fmradio.cpp, which is not part of the sources
here) are modelled from the specification and marked as such in their doc
comments.
-/

namespace FmRadio

/-- Receiver session states, in the column order of the validity table in
android_fmradio_Receiver.cpp (IDLE, STARTING, STARTED, PAUSED, SCANNING,
E_C, RESETTING). -/
inductive FmRadioState where
  | IDLE
  | STARTING
  | STARTED
  | PAUSED
  | SCANNING
  | E_C
  | RESETTING
deriving DecidableEq, Repr

/-- Receiver session events, in the row order of the validity table in
android_fmradio_Receiver.cpp. -/
inductive FmRadioEvent where
  | START
  | START_ASYNC
  | PAUSE
  | RESUME
  | RESET
  | FORCED_PAUSE
  | GET_PARAMETER
  | SET_PARAMETER
  | STOP_SCAN
  | EXTRA_COMMAND
  | GET_SIGNAL_STRENGTH
  | SCAN
  | FULL_SCAN
  | BLOCK_SCAN
deriving DecidableEq, Repr

/-- One row of the validity table: the seven booleans of a row, in the
column order IDLE, STARTING, STARTED, PAUSED, SCANNING, E_C, RESETTING. -/
def validRow (idle starting started paused scanning e_c resetting : Bool) :
    FmRadioState → Bool
  | .IDLE => idle
  | .STARTING => starting
  | .STARTED => started
  | .PAUSED => paused
  | .SCANNING => scanning
  | .E_C => e_c
  | .RESETTING => resetting

/-- Transcription of the static table IsValidRxEventForState of
android_fmradio_Receiver.cpp (lines 55-75), row by row. -/
def IsValidRxEventForState (event : FmRadioEvent) : FmRadioState → Bool :=
  match event with
  | .START => validRow true false false false false false false
  | .START_ASYNC => validRow true false false false false false false
  | .PAUSE => validRow false false true true false false false
  | .RESUME => validRow false false true true false false false
  | .RESET => validRow true true true true true true false
  | .FORCED_PAUSE => validRow true true true true true true false
  | .GET_PARAMETER => validRow false false true true false false false
  | .SET_PARAMETER => validRow false false true true false false false
  | .STOP_SCAN => validRow true true true true true true false
  | .EXTRA_COMMAND => validRow true true true true true true false
  | .GET_SIGNAL_STRENGTH => validRow false false true false false false false
  | .SCAN => validRow false false true true false false false
  | .FULL_SCAN => validRow false false true true false false false
  | .BLOCK_SCAN => validRow false false false false false false false

/-- Transition validity as the specification prescribes it (spec section 4.1
and the section 4.2 summary table): Start/StartAsync only from Idle;
Pause/Resume/Scan/FullScan/GetParameter/SetParameter only from Started or
Paused; GetSignalStrength only from Started; Reset/ForcedPause/StopScan/
ExtraCommand from every state except Resetting; BlockScan never; everything
not listed is invalid. -/
def specTransitionTableIsValid (event : FmRadioEvent) (state : FmRadioState) : Bool :=
  match event with
  | .START | .START_ASYNC => decide (state = .IDLE)
  | .PAUSE | .RESUME | .SCAN | .FULL_SCAN | .GET_PARAMETER | .SET_PARAMETER =>
      decide (state = .STARTED ∨ state = .PAUSED)
  | .GET_SIGNAL_STRENGTH => decide (state = .STARTED)
  | .RESET | .FORCED_PAUSE | .STOP_SCAN | .EXTRA_COMMAND =>
      decide (state ≠ .RESETTING)
  | .BLOCK_SCAN => false

/-- Mutable fields of the receiver session record struct FmSession_t that the
receiver code reads or writes (android_fmradio_Receiver.cpp lines 136-153):
registration flag, current state, cached previous state (field oldState),
deferred-pause flag (field pendingPause) and the stop-scan flag (field
lastScanAborted).  The lock, the vendor handle and the JNI plumbing of the
struct are represented outside the record (vendor capabilities and results are
passed as explicit parameters; lock sections are sequential program points). -/
structure FmSession where
  isRegistered : Bool
  state : FmRadioState
  oldState : FmRadioState
  pendingPause : Bool
  lastScanAborted : Bool
deriving DecidableEq, Repr

/-- Vendor-layer operations the receiver code can invoke through the
vendorMethods_p function-pointer table. -/
inductive VendorCall where
  | resume
  | pause
  | scan
  | full_scan
  | get_signal_strength
  | set_threshold
  | get_threshold
  | set_force_mono
  | set_automatic_af_switching
  | set_automatic_ta_switching
deriving DecidableEq, Repr

/-- Notifications the receiver code delivers to the java layer via the
callbacks_p table (onStateChanged, onError, onScan, onFullScan,
onForcedReset are the ones the modelled operations emit). -/
inductive FmNotification where
  | onStateChanged (newState oldState : FmRadioState)
  | onError
  | onScan (foundFreq signalStrength : Int) (aborted : Bool)
  | onFullScan (noItems : Int) (frequencies sigStrengths : List Int) (aborted : Bool)
  | onForcedReset (reason : Int)
deriving DecidableEq, Repr

/-- Modelled from the spec: the FMRADIO_SET_STATE macro lives in
android_fmradio.h, which is not among the sources here.  Spec section 4.2 and
the testable property "exactly one onStateChanged per intermediate transition
actually taken" (section 8) prescribe that setting the session state emits
onStateChanged(new, old) and overwrites the state field; the receiver code
manages the oldState field separately, so the macro touches only state. -/
def FMRADIO_SET_STATE (s : FmSession) (newState : FmRadioState) :
    FmSession × List FmNotification :=
  ({s with state := newState}, [.onStateChanged newState s.state])

/-- Modelled from the spec: androidFmRadioIsValidEventForState is part of the
shared layer android_fmradio.cpp, which is not among the sources here.  Spec
section 4.1 makes the transition table "the authority for all precondition
checks": the helper looks the (event, current state) pair up in the session's
validity table, which for the receiver is IsValidRxEventForState. -/
def androidFmRadioIsValidEventForState (s : FmSession) (event : FmRadioEvent) : Bool :=
  IsValidRxEventForState event s.state

/-- Modelled from the spec: androidFmRadioTempResumeIfPaused is part of the
shared layer android_fmradio.cpp, which is not among the sources here.  Spec
section 4.2: "if current state is Paused, the controller calls vendor resume()
before the operation ... without changing the externally-visible state field".
Returned is the vendor-call trace of the bracket opening. -/
def androidFmRadioTempResumeIfPaused (s : FmSession) : List VendorCall :=
  if s.state = .PAUSED then [.resume] else []

/-- Modelled from the spec: androidFmRadioPauseIfTempResumed is part of the
shared layer android_fmradio.cpp, which is not among the sources here.  Spec
section 4.2: the controller calls "vendor pause() after" the wrapped operation
when the bracket was opened from Paused, again without changing the state
field.  Returned is the vendor-call trace of the bracket closing. -/
def androidFmRadioPauseIfTempResumed (s : FmSession) : List VendorCall :=
  if s.state = .PAUSED then [.pause] else []

/-- Modelled from the spec: androidFmRadioStopScan is part of the shared layer
android_fmradio.cpp, which is not among the sources here.  Spec sections 4.2
and 4.3: a stop-scan request "sets last_scan_aborted" and "only sets a flag
consulted by the worker"; like every event it is validity-checked first. -/
def androidFmRadioStopScan (s : FmSession) : FmSession :=
  if androidFmRadioIsValidEventForState s .STOP_SCAN then
    {s with lastScanAborted := true}
  else
    s

/-- Result of one worker run: the session it leaves behind, the vendor calls
it made and the notifications it delivered, in order. -/
structure WorkerRun where
  session : FmSession
  calls : List VendorCall
  notifs : List FmNotification
deriving DecidableEq, Repr

/-- Transcription of execute_androidFmRadioRxScan (android_fmradio_Receiver.cpp
lines 860-939).  entry is the session the worker sees when it first takes the
lock; relocked is the session it sees when it re-acquires the lock after the
vendor scan call (the lock is dropped for that call, so concurrent events may
have replaced the session meanwhile).  scanRet is the vendor scan() result
(found frequency, or negative for failure), sigValue the vendor
get_signal_strength() result, and has_get_signal_strength whether that
capability pointer is non-null. -/
def execute_androidFmRadioRxScan (entry relocked : FmSession)
    (scanRet sigValue : Int) (has_get_signal_strength : Bool) : WorkerRun :=
  let oldState := entry.oldState
  let resumeCalls : List VendorCall := if oldState = .PAUSED then [.resume] else []
  if relocked.state ≠ .SCANNING then
    {session := {relocked with pendingPause := false},
     calls := resumeCalls ++ [.scan],
     notifs := [.onError]}
  else
    let pauseCalls : List VendorCall :=
      if oldState = .PAUSED ∨ relocked.pendingPause then [.pause] else []
    let stateSet :=
      if relocked.pendingPause then FMRADIO_SET_STATE relocked .PAUSED
      else FMRADIO_SET_STATE relocked oldState
    let sigFetch :=
      if 0 ≤ scanRet ∧ has_get_signal_strength = true then
        (([VendorCall.get_signal_strength], sigValue) : List VendorCall × Int)
      else
        ([], -1)
    let final := {stateSet.1 with pendingPause := false}
    let resultNotifs :=
      if 0 ≤ scanRet then [FmNotification.onScan scanRet sigFetch.2 final.lastScanAborted]
      else [FmNotification.onError]
    {session := final,
     calls := resumeCalls ++ [.scan] ++ pauseCalls ++ sigFetch.1,
     notifs := stateSet.2 ++ resultNotifs}

/-- Transcription of execute_androidFmRadioRxFullScan
(android_fmradio_Receiver.cpp lines 1012-1083).  Parameters as in
execute_androidFmRadioRxScan; fullScanRet is the vendor full_scan() result
(number of found items, or negative for failure) and frequencies/sigStrengths
the arrays it filled in. -/
def execute_androidFmRadioRxFullScan (entry relocked : FmSession)
    (fullScanRet : Int) (frequencies sigStrengths : List Int) : WorkerRun :=
  let oldState := entry.oldState
  let resumeCalls : List VendorCall := if oldState = .PAUSED then [.resume] else []
  if relocked.state ≠ .SCANNING then
    {session := relocked,
     calls := resumeCalls ++ [.full_scan],
     notifs := [.onError]}
  else
    let stateSet :=
      if relocked.pendingPause then FMRADIO_SET_STATE relocked .PAUSED
      else FMRADIO_SET_STATE relocked oldState
    let final := {stateSet.1 with pendingPause := false}
    let resultNotifs :=
      if 0 ≤ fullScanRet then
        [FmNotification.onFullScan fullScanRet frequencies sigStrengths final.lastScanAborted]
      else
        [FmNotification.onError]
    {session := final,
     calls := resumeCalls ++ [.full_scan],
     notifs := stateSet.2 ++ resultNotifs}

/-- Modelled from the spec: the FMRADIO_OK / FMRADIO_INVALID_STATE /
FMRADIO_UNSUPPORTED_OPERATION / FMRADIO_IO_ERROR status constants and the
THROW_INVALID_STATE / THROW_IO_ERROR exception macros live in
android_fmradio.h, which is not among the sources here.  Spec section 7 keeps
the four outcomes distinct, and section 4.4 requires a missing capability to
surface as UnsupportedOperation rather than IoError; the outcome type mirrors
that taxonomy (ok carries the non-negative integer result where the operation
returns one). -/
inductive FmOutcome where
  | ok (value : Int)
  | invalidState
  | unsupportedOperation
  | ioError
deriving DecidableEq, Repr

/-- Result of one capability-gated query/parameter operation: the session it
leaves behind, the vendor calls it made and its surfaced outcome. -/
structure QueryRun where
  session : FmSession
  calls : List VendorCall
  outcome : FmOutcome
deriving DecidableEq, Repr

/-- Result of one scan request (androidFmRadioRxScan /
androidFmRadioRxStartFullScan): the session left behind, whether a worker
thread was spawned, the surfaced outcome and the notifications emitted while
servicing the request itself (the spawned worker's own run is modelled
separately by the execute_ functions). -/
structure ScanRequestRun where
  session : FmSession
  spawned : Bool
  outcome : FmOutcome
  notifs : List FmNotification
deriving DecidableEq, Repr

/-- Transcription of androidFmRadioRxScan (android_fmradio_Receiver.cpp lines
942-994): validity check for FMRADIO_EVENT_SCAN, capability check on the
vendor scan pointer, capture of oldState, transition to SCANNING, clearing of
lastScanAborted, then thread creation; on pthread_create failure the state is
set to IDLE and the request fails with IO error. -/
def androidFmRadioRxScan (s : FmSession)
    (has_scan pthread_create_ok : Bool) : ScanRequestRun :=
  if ¬ androidFmRadioIsValidEventForState s .SCAN then
    {session := s, spawned := false, outcome := .invalidState, notifs := []}
  else if has_scan then
    let s1 := {s with oldState := s.state}
    let toScanning := FMRADIO_SET_STATE s1 .SCANNING
    let s2 := {toScanning.1 with lastScanAborted := false}
    if ¬ pthread_create_ok then
      let toIdle := FMRADIO_SET_STATE s2 .IDLE
      {session := toIdle.1, spawned := false, outcome := .ioError,
       notifs := toScanning.2 ++ toIdle.2}
    else
      {session := s2, spawned := true, outcome := .ok 0, notifs := toScanning.2}
  else
    {session := s, spawned := false, outcome := .unsupportedOperation, notifs := []}

/-- Transcription of androidFmRadioRxStartFullScan
(android_fmradio_Receiver.cpp lines 1085-1126): same shape as
androidFmRadioRxScan with the FMRADIO_EVENT_FULL_SCAN event and the vendor
full_scan capability. -/
def androidFmRadioRxStartFullScan (s : FmSession)
    (has_full_scan pthread_create_ok : Bool) : ScanRequestRun :=
  if ¬ androidFmRadioIsValidEventForState s .FULL_SCAN then
    {session := s, spawned := false, outcome := .invalidState, notifs := []}
  else if has_full_scan then
    let s1 := {s with oldState := s.state}
    let toScanning := FMRADIO_SET_STATE s1 .SCANNING
    let s2 := {toScanning.1 with lastScanAborted := false}
    if ¬ pthread_create_ok then
      let toIdle := FMRADIO_SET_STATE s2 .IDLE
      {session := toIdle.1, spawned := false, outcome := .ioError,
       notifs := toScanning.2 ++ toIdle.2}
    else
      {session := s2, spawned := true, outcome := .ok 0, notifs := toScanning.2}
  else
    {session := s, spawned := false, outcome := .unsupportedOperation, notifs := []}

/-- Shared shape of the capability-gated vendor queries that run inside the
temporary-resume bracket (get_signal_strength, set_threshold, get_threshold,
set_force_mono): validity check for the given event, capability check, then
bracket / vendor call / bracket, with a vendor result below zero surfaced as
an IO error. -/
def bracketedVendorQuery (s : FmSession) (event : FmRadioEvent)
    (hasCapability : Bool) (call : VendorCall) (vendorRet : Int) : QueryRun :=
  if ¬ androidFmRadioIsValidEventForState s event then
    {session := s, calls := [], outcome := .invalidState}
  else if hasCapability then
    {session := s,
     calls := androidFmRadioTempResumeIfPaused s ++ [call] ++
              androidFmRadioPauseIfTempResumed s,
     outcome := if vendorRet < 0 then .ioError else .ok vendorRet}
  else
    {session := s, calls := [], outcome := .unsupportedOperation}

/-- Transcription of androidFmRadioRxGetSignalStrength
(android_fmradio_Receiver.cpp lines 704-741): validity check for
FMRADIO_EVENT_GET_SIGNAL_STRENGTH, capability check on get_signal_strength,
temporary-resume bracket around the vendor call. -/
def androidFmRadioRxGetSignalStrength (s : FmSession)
    (has_get_signal_strength : Bool) (vendorRet : Int) : QueryRun :=
  bracketedVendorQuery s .GET_SIGNAL_STRENGTH has_get_signal_strength
    .get_signal_strength vendorRet

/-- Transcription of androidFmRadioRxSetThreshold (android_fmradio_Receiver.cpp
lines 1236-1273): validity check for FMRADIO_EVENT_SET_PARAMETER, capability
check on set_threshold, temporary-resume bracket around the vendor call. -/
def androidFmRadioRxSetThreshold (s : FmSession)
    (has_set_threshold : Bool) (vendorRet : Int) : QueryRun :=
  bracketedVendorQuery s .SET_PARAMETER has_set_threshold .set_threshold vendorRet

/-- Transcription of androidFmRadioRxGetThreshold (android_fmradio_Receiver.cpp
lines 1275-1308): validity check for FMRADIO_EVENT_GET_PARAMETER, capability
check on get_threshold, temporary-resume bracket around the vendor call. -/
def androidFmRadioRxGetThreshold (s : FmSession)
    (has_get_threshold : Bool) (vendorRet : Int) : QueryRun :=
  bracketedVendorQuery s .GET_PARAMETER has_get_threshold .get_threshold vendorRet

/-- Transcription of androidFmRadioRxSetForceMono (android_fmradio_Receiver.cpp
lines 1197-1234): validity check for FMRADIO_EVENT_SET_PARAMETER, capability
check on set_force_mono, temporary-resume bracket around the vendor call. -/
def androidFmRadioRxSetForceMono (s : FmSession)
    (has_set_force_mono : Bool) (vendorRet : Int) : QueryRun :=
  bracketedVendorQuery s .SET_PARAMETER has_set_force_mono .set_force_mono vendorRet

/-- Transcription of androidFmRadioRxSetAutomaticAFSwitching
(android_fmradio_Receiver.cpp lines 1128-1161): validity check for
FMRADIO_EVENT_SET_PARAMETER, capability check on set_automatic_af_switching,
direct vendor call (no temporary-resume bracket in the source). -/
def androidFmRadioRxSetAutomaticAFSwitching (s : FmSession)
    (has_set_automatic_af_switching : Bool) (vendorRet : Int) : QueryRun :=
  if ¬ androidFmRadioIsValidEventForState s .SET_PARAMETER then
    {session := s, calls := [], outcome := .invalidState}
  else if has_set_automatic_af_switching then
    {session := s, calls := [.set_automatic_af_switching],
     outcome := if vendorRet < 0 then .ioError else .ok vendorRet}
  else
    {session := s, calls := [], outcome := .unsupportedOperation}

/-- Transcription of androidFmRadioRxSetAutomaticTASwitching
(android_fmradio_Receiver.cpp lines 1163-1195): same shape as the AF variant
with the set_automatic_ta_switching capability. -/
def androidFmRadioRxSetAutomaticTASwitching (s : FmSession)
    (has_set_automatic_ta_switching : Bool) (vendorRet : Int) : QueryRun :=
  if ¬ androidFmRadioIsValidEventForState s .SET_PARAMETER then
    {session := s, calls := [], outcome := .invalidState}
  else if has_set_automatic_ta_switching then
    {session := s, calls := [.set_automatic_ta_switching],
     outcome := if vendorRet < 0 then .ioError else .ok vendorRet}
  else
    {session := s, calls := [], outcome := .unsupportedOperation}

/-- Transcription of androidFmRadioRxCallbackOnVendorForcedReset
(android_fmradio_Receiver.cpp lines 378-388): under the lock, if the state is
not IDLE force it to IDLE, then deliver onForcedReset(reason). -/
def androidFmRadioRxCallbackOnVendorForcedReset (s : FmSession) (reason : Int) :
    FmSession × List FmNotification :=
  if s.state ≠ .IDLE then
    let toIdle := FMRADIO_SET_STATE s .IDLE
    (toIdle.1, toIdle.2 ++ [.onForcedReset reason])
  else
    (s, [.onForcedReset reason])

end FmRadio

open FmRadio

/-- Claim C1: for every (event, state) pair, the receiver transition-validity
lookup of android_fmradio_Receiver.cpp returns exactly what the spec's table
prescribes: Start/StartAsync valid only from Idle; Pause/Resume/Scan/FullScan/
GetParameter/SetParameter valid only from Started or Paused; GetSignalStrength
valid only from Started; Reset/ForcedPause/StopScan/ExtraCommand valid from
every state except Resetting; BlockScan valid from no state; every pair not
listed as valid is invalid. -/
theorem c1_transition_table_matches_spec :
    ∀ (event : FmRadioEvent) (state : FmRadioState),
      IsValidRxEventForState event state = specTransitionTableIsValid event state := by
  intro event state
  cases event <;> cases state <;> rfl

/-- Claim C2: for every scan or full-scan worker run, if at re-lock after the
vendor call the session state is no longer Scanning, the worker leaves state
and previous-state untouched, discards the result and emits onError rather
than onScan/onFullScan; in particular when a reset left the session Idle it
stays Idle. -/
theorem c2_stale_worker_discards_result
    (entry relocked : FmSession) (scanRet sigValue : Int)
    (has_get_signal_strength : Bool) (fullScanRet : Int)
    (frequencies sigStrengths : List Int)
    (hstale : relocked.state ≠ .SCANNING) :
    ((execute_androidFmRadioRxScan entry relocked scanRet sigValue
        has_get_signal_strength).session.state = relocked.state ∧
     (execute_androidFmRadioRxScan entry relocked scanRet sigValue
        has_get_signal_strength).session.oldState = relocked.oldState ∧
     (execute_androidFmRadioRxScan entry relocked scanRet sigValue
        has_get_signal_strength).notifs = [.onError]) ∧
    ((execute_androidFmRadioRxFullScan entry relocked fullScanRet frequencies
        sigStrengths).session.state = relocked.state ∧
     (execute_androidFmRadioRxFullScan entry relocked fullScanRet frequencies
        sigStrengths).session.oldState = relocked.oldState ∧
     (execute_androidFmRadioRxFullScan entry relocked fullScanRet frequencies
        sigStrengths).notifs = [.onError]) ∧
    (relocked.state = .IDLE →
     (execute_androidFmRadioRxScan entry relocked scanRet sigValue
        has_get_signal_strength).session.state = .IDLE ∧
     (execute_androidFmRadioRxFullScan entry relocked fullScanRet frequencies
        sigStrengths).session.state = .IDLE) := by
  refine ⟨?_, ?_, ?_⟩
  · simp [execute_androidFmRadioRxScan, if_pos hstale]
  · simp [execute_androidFmRadioRxFullScan, if_pos hstale]
  · intro hidle
    constructor <;>
      simp [execute_androidFmRadioRxScan, execute_androidFmRadioRxFullScan,
        if_pos hstale, hidle]

/-- Witness for c2_stale_worker_discards_result: a worker spawned from Started
that finds the session reset to Idle at re-lock keeps Idle and reports only
onError. -/
theorem c2_stale_worker_discards_result_witness :
    (execute_androidFmRadioRxScan ⟨true, .SCANNING, .STARTED, false, false⟩
       ⟨true, .IDLE, .STARTED, false, false⟩ 98300 5 true).session.state = .IDLE ∧
    (execute_androidFmRadioRxFullScan ⟨true, .SCANNING, .STARTED, false, false⟩
       ⟨true, .IDLE, .STARTED, false, false⟩ 3 [98300] [17]).notifs = [.onError] :=
  ⟨((c2_stale_worker_discards_result ⟨true, .SCANNING, .STARTED, false, false⟩
      ⟨true, .IDLE, .STARTED, false, false⟩ 98300 5 true 3 [98300] [17]
      (by decide)).2.2 rfl).1,
   (c2_stale_worker_discards_result ⟨true, .SCANNING, .STARTED, false, false⟩
      ⟨true, .IDLE, .STARTED, false, false⟩ 98300 5 true 3 [98300] [17]
      (by decide)).2.1.2.2⟩

/-- Counterexample to claim C3: at the same concrete run (previous state
Paused, still Scanning at re-lock, vendor call succeeded) the single-frequency
scan worker invokes vendor pause() but the full-band scan worker does not, so
the finalization protocol is not identical and the claimed vendor pause()
invocation is missing from the full-band worker. -/
theorem c3_counterexample :
    ((⟨true, .SCANNING, .PAUSED, false, false⟩ : FmSession).oldState = .PAUSED ∧
     (⟨true, .SCANNING, .PAUSED, false, false⟩ : FmSession).state = .SCANNING) ∧
    VendorCall.pause ∈ (execute_androidFmRadioRxScan
      ⟨true, .SCANNING, .PAUSED, false, false⟩
      ⟨true, .SCANNING, .PAUSED, false, false⟩ 98300 5 false).calls ∧
    VendorCall.pause ∉ (execute_androidFmRadioRxFullScan
      ⟨true, .SCANNING, .PAUSED, false, false⟩
      ⟨true, .SCANNING, .PAUSED, false, false⟩ 3 [98300] [17]).calls := by
  decide

/-- Claim C3 as amended: when the state is still Scanning at re-lock, both
workers finalize the state identically (Paused when pending_pause is set,
otherwise the captured previous state), and the single-frequency worker
invokes vendor pause() exactly when pending_pause is set or the captured
previous state was Paused — but the full-band worker never invokes vendor
pause(). -/
theorem c3_amended_finalization
    (entry relocked : FmSession) (scanRet sigValue : Int)
    (has_get_signal_strength : Bool) (fullScanRet : Int)
    (frequencies sigStrengths : List Int)
    (hscanning : relocked.state = .SCANNING) :
    ((execute_androidFmRadioRxScan entry relocked scanRet sigValue
        has_get_signal_strength).session.state =
      (if relocked.pendingPause then .PAUSED else entry.oldState)) ∧
    ((execute_androidFmRadioRxFullScan entry relocked fullScanRet frequencies
        sigStrengths).session.state =
      (if relocked.pendingPause then .PAUSED else entry.oldState)) ∧
    (VendorCall.pause ∈ (execute_androidFmRadioRxScan entry relocked scanRet
        sigValue has_get_signal_strength).calls ↔
      (entry.oldState = .PAUSED ∨ relocked.pendingPause = true)) ∧
    VendorCall.pause ∉ (execute_androidFmRadioRxFullScan entry relocked
      fullScanRet frequencies sigStrengths).calls := by
  have hns : ¬ relocked.state ≠ .SCANNING := by simp [hscanning]
  simp only [execute_androidFmRadioRxScan, execute_androidFmRadioRxFullScan,
    if_neg hns, FMRADIO_SET_STATE]
  refine ⟨?_, ?_, ?_, ?_⟩
  · by_cases hp : relocked.pendingPause <;> simp [hp]
  · by_cases hp : relocked.pendingPause <;> simp [hp]
  · by_cases hp : relocked.pendingPause <;>
      by_cases ho : entry.oldState = .PAUSED <;>
      by_cases hg : 0 ≤ scanRet ∧ has_get_signal_strength = true <;>
      simp [hp, ho, hg]
  · by_cases ho : entry.oldState = .PAUSED <;>
      by_cases hp : relocked.pendingPause <;> simp [hp, ho]

/-- Witness for c3_amended_finalization: a deferred pause finalizes both
workers into Paused, the single-frequency worker pauses the vendor chip, the
full-band worker does not. -/
theorem c3_amended_finalization_witness :
    (execute_androidFmRadioRxScan ⟨true, .SCANNING, .STARTED, false, false⟩
       ⟨true, .SCANNING, .STARTED, true, false⟩ 98300 5 true).session.state = .PAUSED ∧
    VendorCall.pause ∉ (execute_androidFmRadioRxFullScan
       ⟨true, .SCANNING, .STARTED, false, false⟩
       ⟨true, .SCANNING, .STARTED, true, false⟩ 3 [98300] [17]).calls := by
  have h := c3_amended_finalization ⟨true, .SCANNING, .STARTED, false, false⟩
    ⟨true, .SCANNING, .STARTED, true, false⟩ 98300 5 true 3 [98300] [17] rfl
  exact ⟨by simpa using h.1, h.2.2.2⟩

/-- Counterexample to claim C4: a full-band scan worker that finds the session
no longer Scanning at re-lock (here: reset to Idle) exits with pending_pause
still set, so pending_pause is not false after every worker exit path. -/
theorem c4_counterexample :
    ((⟨true, .IDLE, .STARTED, true, false⟩ : FmSession).state ≠ .SCANNING ∧
     (⟨true, .IDLE, .STARTED, true, false⟩ : FmSession).pendingPause = true) ∧
    (execute_androidFmRadioRxFullScan ⟨true, .SCANNING, .STARTED, true, false⟩
       ⟨true, .IDLE, .STARTED, true, false⟩ 3 [98300] [17]).session.pendingPause
      = true := by
  decide

/-- Claim C4 as amended: the single-frequency scan worker clears pending_pause
on every exit path (including the stale-result path), and a pause deferred
while Scanning yields state Paused at finalization in both workers; the
full-band scan worker, however, clears pending_pause only when the state is
still Scanning at re-lock and leaves it untouched on the stale-result path. -/
theorem c4_amended_pending_pause
    (entry relocked : FmSession) (scanRet sigValue : Int)
    (has_get_signal_strength : Bool) (fullScanRet : Int)
    (frequencies sigStrengths : List Int) :
    ((execute_androidFmRadioRxScan entry relocked scanRet sigValue
        has_get_signal_strength).session.pendingPause = false) ∧
    (relocked.state = .SCANNING →
     (execute_androidFmRadioRxFullScan entry relocked fullScanRet frequencies
        sigStrengths).session.pendingPause = false) ∧
    (relocked.state = .SCANNING → relocked.pendingPause = true →
     (execute_androidFmRadioRxScan entry relocked scanRet sigValue
        has_get_signal_strength).session.state = .PAUSED ∧
     (execute_androidFmRadioRxFullScan entry relocked fullScanRet frequencies
        sigStrengths).session.state = .PAUSED) ∧
    (relocked.state ≠ .SCANNING →
     (execute_androidFmRadioRxFullScan entry relocked fullScanRet frequencies
        sigStrengths).session.pendingPause = relocked.pendingPause) := by
  refine ⟨?_, ?_, ?_, ?_⟩
  · by_cases hs : relocked.state ≠ .SCANNING <;>
      by_cases hp : relocked.pendingPause <;>
      simp [execute_androidFmRadioRxScan, FMRADIO_SET_STATE, hs, hp]
  · intro hs
    have hns : ¬ relocked.state ≠ .SCANNING := by simp [hs]
    by_cases hp : relocked.pendingPause <;>
      simp [execute_androidFmRadioRxFullScan, FMRADIO_SET_STATE, if_neg hns, hp]
  · intro hs hp
    have hns : ¬ relocked.state ≠ .SCANNING := by simp [hs]
    constructor <;>
      simp [execute_androidFmRadioRxScan, execute_androidFmRadioRxFullScan,
        FMRADIO_SET_STATE, if_neg hns, hp]
  · intro hs
    simp [execute_androidFmRadioRxFullScan, if_pos hs]

/-- Witness for c4_amended_pending_pause: at a concrete stale full-band run the
flag survives, while the single-frequency worker always clears it. -/
theorem c4_amended_pending_pause_witness :
    (execute_androidFmRadioRxScan ⟨true, .SCANNING, .STARTED, true, false⟩
       ⟨true, .IDLE, .STARTED, true, false⟩ 98300 5 true).session.pendingPause
      = false ∧
    (execute_androidFmRadioRxFullScan ⟨true, .SCANNING, .STARTED, true, false⟩
       ⟨true, .IDLE, .STARTED, true, false⟩ 3 [98300] [17]).session.pendingPause
      = true := by
  have h := c4_amended_pending_pause ⟨true, .SCANNING, .STARTED, true, false⟩
    ⟨true, .IDLE, .STARTED, true, false⟩ 98300 5 true 3 [98300] [17]
  exact ⟨h.1, by rw [h.2.2.2 (by decide)]⟩

/-- Claim C5: a Scan event issued while the state is Scanning is rejected with
InvalidState, spawns no worker thread, and leaves every session field
unchanged (the whole request run is the identity on the session, with no
notifications). -/
theorem c5_scan_while_scanning_rejected (s : FmSession)
    (has_scan pthread_create_ok : Bool) (h : s.state = .SCANNING) :
    androidFmRadioRxScan s has_scan pthread_create_ok =
      {session := s, spawned := false, outcome := .invalidState, notifs := []} := by
  simp [androidFmRadioRxScan, androidFmRadioIsValidEventForState, h,
    IsValidRxEventForState, validRow]

/-- Witness for c5_scan_while_scanning_rejected at a concrete mid-scan
session. -/
theorem c5_scan_while_scanning_rejected_witness :
    androidFmRadioRxScan ⟨true, .SCANNING, .STARTED, false, false⟩ true true =
      {session := ⟨true, .SCANNING, .STARTED, false, false⟩, spawned := false,
       outcome := .invalidState, notifs := []} :=
  c5_scan_while_scanning_rejected ⟨true, .SCANNING, .STARTED, false, false⟩
    true true rfl

/-- Claim C6: a vendor-originated forced reset delivered in any non-Idle state
forces the state to Idle and delivers onForcedReset with the given reason
exactly once (the full notification list is one onStateChanged followed by
one onForcedReset). -/
theorem c6_vendor_forced_reset_idles_and_notifies_once (s : FmSession)
    (reason : Int) (h : s.state ≠ .IDLE) :
    (androidFmRadioRxCallbackOnVendorForcedReset s reason).1.state = .IDLE ∧
    (androidFmRadioRxCallbackOnVendorForcedReset s reason).2 =
      [.onStateChanged .IDLE s.state, .onForcedReset reason] ∧
    ((androidFmRadioRxCallbackOnVendorForcedReset s reason).2.count
      (.onForcedReset reason)) = 1 := by
  refine ⟨?_, ?_, ?_⟩ <;>
    simp [androidFmRadioRxCallbackOnVendorForcedReset, FMRADIO_SET_STATE,
      if_pos h, List.count_cons]

/-- Witness for c6_vendor_forced_reset_idles_and_notifies_once: forced reset
with reason 3 delivered while Started. -/
theorem c6_vendor_forced_reset_witness :
    (androidFmRadioRxCallbackOnVendorForcedReset
       ⟨true, .STARTED, .IDLE, false, false⟩ 3).1.state = .IDLE ∧
    (androidFmRadioRxCallbackOnVendorForcedReset
       ⟨true, .STARTED, .IDLE, false, false⟩ 3).2 =
      [.onStateChanged .IDLE .STARTED, .onForcedReset 3] ∧
    ((androidFmRadioRxCallbackOnVendorForcedReset
       ⟨true, .STARTED, .IDLE, false, false⟩ 3).2.count (.onForcedReset 3)) = 1 :=
  c6_vendor_forced_reset_idles_and_notifies_once
    ⟨true, .STARTED, .IDLE, false, false⟩ 3 (by decide)

/-- Counterexample to claim C7: a getSignalStrength call issued while Paused is
rejected by the validity table (GetSignalStrength is valid only from Started),
so no vendor resume()/pause() bracket runs at all — the vendor-call trace is
empty and the outcome is InvalidState, contradicting the claimed transient
resume/pause. -/
theorem c7_counterexample :
    ((⟨true, .PAUSED, .STARTED, false, false⟩ : FmSession).state = .PAUSED) ∧
    (androidFmRadioRxGetSignalStrength ⟨true, .PAUSED, .STARTED, false, false⟩
       true 5).calls = [] ∧
    (androidFmRadioRxGetSignalStrength ⟨true, .PAUSED, .STARTED, false, false⟩
       true 5).outcome = .invalidState := by
  decide

/-- Claim C7 as amended: a getSignalStrength call issued while state is Paused
fails with InvalidState, invokes no vendor operation (in particular no
resume/pause bracket), and leaves the session unchanged — so the observable
state is Paused both immediately before and immediately after the call. -/
theorem c7_amended_get_signal_strength_paused_rejected (s : FmSession)
    (has_get_signal_strength : Bool) (vendorRet : Int) (h : s.state = .PAUSED) :
    androidFmRadioRxGetSignalStrength s has_get_signal_strength vendorRet =
      {session := s, calls := [], outcome := .invalidState} := by
  simp [androidFmRadioRxGetSignalStrength, bracketedVendorQuery,
    androidFmRadioIsValidEventForState, h, IsValidRxEventForState, validRow]

/-- Witness for c7_amended_get_signal_strength_paused_rejected at a concrete
paused session with the capability present. -/
theorem c7_amended_witness :
    androidFmRadioRxGetSignalStrength ⟨true, .PAUSED, .STARTED, false, false⟩
      true 5 =
      {session := ⟨true, .PAUSED, .STARTED, false, false⟩, calls := [],
       outcome := .invalidState} :=
  c7_amended_get_signal_strength_paused_rejected
    ⟨true, .PAUSED, .STARTED, false, false⟩ true 5 rfl

/-- Claim C8: for every capability-gated operation (getSignalStrength, scan,
full scan, set/get threshold, set force mono, set automatic AF/TA switching),
when the operation's validity precondition holds but the corresponding vendor
function pointer is null, the operation fails with UnsupportedOperation (not
IoError) and the session is unchanged. -/
theorem c8_missing_capability_is_unsupported (s : FmSession) (v : Int) :
    (IsValidRxEventForState .GET_SIGNAL_STRENGTH s.state = true →
      androidFmRadioRxGetSignalStrength s false v =
        {session := s, calls := [], outcome := .unsupportedOperation}) ∧
    (IsValidRxEventForState .SCAN s.state = true →
      androidFmRadioRxScan s false true =
        {session := s, spawned := false, outcome := .unsupportedOperation,
         notifs := []}) ∧
    (IsValidRxEventForState .FULL_SCAN s.state = true →
      androidFmRadioRxStartFullScan s false true =
        {session := s, spawned := false, outcome := .unsupportedOperation,
         notifs := []}) ∧
    (IsValidRxEventForState .SET_PARAMETER s.state = true →
      androidFmRadioRxSetThreshold s false v =
        {session := s, calls := [], outcome := .unsupportedOperation}) ∧
    (IsValidRxEventForState .GET_PARAMETER s.state = true →
      androidFmRadioRxGetThreshold s false v =
        {session := s, calls := [], outcome := .unsupportedOperation}) ∧
    (IsValidRxEventForState .SET_PARAMETER s.state = true →
      androidFmRadioRxSetForceMono s false v =
        {session := s, calls := [], outcome := .unsupportedOperation}) ∧
    (IsValidRxEventForState .SET_PARAMETER s.state = true →
      androidFmRadioRxSetAutomaticAFSwitching s false v =
        {session := s, calls := [], outcome := .unsupportedOperation}) ∧
    (IsValidRxEventForState .SET_PARAMETER s.state = true →
      androidFmRadioRxSetAutomaticTASwitching s false v =
        {session := s, calls := [], outcome := .unsupportedOperation}) := by
  refine ⟨?_, ?_, ?_, ?_, ?_, ?_, ?_, ?_⟩ <;>
    intro h <;>
    simp [androidFmRadioRxGetSignalStrength, androidFmRadioRxScan,
      androidFmRadioRxStartFullScan, androidFmRadioRxSetThreshold,
      androidFmRadioRxGetThreshold, androidFmRadioRxSetForceMono,
      androidFmRadioRxSetAutomaticAFSwitching,
      androidFmRadioRxSetAutomaticTASwitching, bracketedVendorQuery,
      androidFmRadioIsValidEventForState, h]

/-- Witness for c8_missing_capability_is_unsupported: all eight operations at a
concrete Started session with the respective capability absent. -/
theorem c8_missing_capability_is_unsupported_witness :
    androidFmRadioRxGetSignalStrength ⟨true, .STARTED, .IDLE, false, false⟩
      false 7 =
      {session := ⟨true, .STARTED, .IDLE, false, false⟩, calls := [],
       outcome := .unsupportedOperation} ∧
    androidFmRadioRxScan ⟨true, .STARTED, .IDLE, false, false⟩ false true =
      {session := ⟨true, .STARTED, .IDLE, false, false⟩, spawned := false,
       outcome := .unsupportedOperation, notifs := []} ∧
    androidFmRadioRxStartFullScan ⟨true, .STARTED, .IDLE, false, false⟩
      false true =
      {session := ⟨true, .STARTED, .IDLE, false, false⟩, spawned := false,
       outcome := .unsupportedOperation, notifs := []} ∧
    androidFmRadioRxSetThreshold ⟨true, .STARTED, .IDLE, false, false⟩
      false 7 =
      {session := ⟨true, .STARTED, .IDLE, false, false⟩, calls := [],
       outcome := .unsupportedOperation} ∧
    androidFmRadioRxGetThreshold ⟨true, .STARTED, .IDLE, false, false⟩
      false 7 =
      {session := ⟨true, .STARTED, .IDLE, false, false⟩, calls := [],
       outcome := .unsupportedOperation} ∧
    androidFmRadioRxSetForceMono ⟨true, .STARTED, .IDLE, false, false⟩
      false 7 =
      {session := ⟨true, .STARTED, .IDLE, false, false⟩, calls := [],
       outcome := .unsupportedOperation} ∧
    androidFmRadioRxSetAutomaticAFSwitching
      ⟨true, .STARTED, .IDLE, false, false⟩ false 7 =
      {session := ⟨true, .STARTED, .IDLE, false, false⟩, calls := [],
       outcome := .unsupportedOperation} ∧
    androidFmRadioRxSetAutomaticTASwitching
      ⟨true, .STARTED, .IDLE, false, false⟩ false 7 =
      {session := ⟨true, .STARTED, .IDLE, false, false⟩, calls := [],
       outcome := .unsupportedOperation} := by
  have h := c8_missing_capability_is_unsupported
    ⟨true, .STARTED, .IDLE, false, false⟩ 7
  exact ⟨h.1 rfl, h.2.1 rfl, h.2.2.1 rfl, h.2.2.2.1 rfl, h.2.2.2.2.1 rfl,
    h.2.2.2.2.2.1 rfl, h.2.2.2.2.2.2.1 rfl, h.2.2.2.2.2.2.2 rfl⟩

/-- Counterexample to claim C9: the aborted flag the worker reports is read
when the result is emitted, not captured at worker entry — a stop-scan request
arriving while the vendor call is in flight (modelled by the session the
worker sees at re-lock) makes the worker report aborted = true although
last_scan_aborted was false at entry. -/
theorem c9_counterexample :
    ((⟨true, .SCANNING, .STARTED, false, false⟩ : FmSession).lastScanAborted
      = false) ∧
    (execute_androidFmRadioRxScan ⟨true, .SCANNING, .STARTED, false, false⟩
       (androidFmRadioStopScan ⟨true, .SCANNING, .STARTED, false, false⟩)
       98300 5 false).notifs =
      [.onStateChanged .STARTED .SCANNING, .onScan 98300 (-1) true] := by
  decide

/-- Claim C9 as amended: the aborted flag a worker reports in onScan/onFullScan
is the value of last_scan_aborted held when the worker re-acquires the session
lock after the vendor call (so a StopScan issued during the vendor call is
reflected), not the value captured at worker entry. -/
theorem c9_amended_aborted_flag_read_at_relock
    (entry relocked : FmSession) (scanRet sigValue : Int)
    (has_get_signal_strength : Bool) (fullScanRet : Int)
    (frequencies sigStrengths : List Int) :
    (∀ foundFreq signalStrength aborted,
      FmNotification.onScan foundFreq signalStrength aborted ∈
        (execute_androidFmRadioRxScan entry relocked scanRet sigValue
          has_get_signal_strength).notifs →
      aborted = relocked.lastScanAborted) ∧
    (∀ noItems freqs rssi aborted,
      FmNotification.onFullScan noItems freqs rssi aborted ∈
        (execute_androidFmRadioRxFullScan entry relocked fullScanRet
          frequencies sigStrengths).notifs →
      aborted = relocked.lastScanAborted) := by
  constructor
  · intro f g a hmem
    by_cases hs : relocked.state = .SCANNING
    · by_cases hp : relocked.pendingPause <;>
        by_cases hr : (0:Int) ≤ scanRet <;>
        simp [execute_androidFmRadioRxScan, FMRADIO_SET_STATE, hs, hp, hr]
          at hmem <;>
        tauto
    · simp [execute_androidFmRadioRxScan, hs] at hmem
  · intro n f r a hmem
    by_cases hs : relocked.state = .SCANNING
    · by_cases hp : relocked.pendingPause <;>
        by_cases hr : (0:Int) ≤ fullScanRet <;>
        simp [execute_androidFmRadioRxFullScan, FMRADIO_SET_STATE, hs, hp, hr]
          at hmem <;>
        tauto
    · simp [execute_androidFmRadioRxFullScan, hs] at hmem

/-- Witness for c9_amended_aborted_flag_read_at_relock: a stop-scan during the
vendor call makes the concrete run report aborted = true, the re-lock value of
the flag. -/
theorem c9_amended_witness :
    true = (androidFmRadioStopScan
      ⟨true, .SCANNING, .STARTED, false, false⟩).lastScanAborted :=
  (c9_amended_aborted_flag_read_at_relock
    ⟨true, .SCANNING, .STARTED, false, false⟩
    (androidFmRadioStopScan ⟨true, .SCANNING, .STARTED, false, false⟩)
    98300 5 false 3 [98300] [17]).1 98300 (-1) true (by decide)

/-- Claim C10: when worker-thread creation fails while servicing a Scan or
FullScan request from Started or Paused, the request fails with IoError and
the session state is set to Idle, which is not the pre-scan state the session
was in before the request. -/
theorem c10_thread_create_failure_goes_idle (s : FmSession)
    (h : s.state = .STARTED ∨ s.state = .PAUSED) :
    ((androidFmRadioRxScan s true false).outcome = .ioError ∧
     (androidFmRadioRxScan s true false).session.state = .IDLE ∧
     (androidFmRadioRxScan s true false).spawned = false ∧
     (androidFmRadioRxScan s true false).session.state ≠ s.state) ∧
    ((androidFmRadioRxStartFullScan s true false).outcome = .ioError ∧
     (androidFmRadioRxStartFullScan s true false).session.state = .IDLE ∧
     (androidFmRadioRxStartFullScan s true false).spawned = false ∧
     (androidFmRadioRxStartFullScan s true false).session.state ≠ s.state) := by
  rcases h with h | h <;>
    constructor <;>
    simp [androidFmRadioRxScan, androidFmRadioRxStartFullScan,
      androidFmRadioIsValidEventForState, h, IsValidRxEventForState, validRow,
      FMRADIO_SET_STATE]

/-- Witness for c10_thread_create_failure_goes_idle: thread-creation failure
from a concrete Started session. -/
theorem c10_thread_create_failure_goes_idle_witness :
    (androidFmRadioRxScan ⟨true, .STARTED, .IDLE, false, false⟩
      true false).session.state = .IDLE ∧
    (androidFmRadioRxStartFullScan ⟨true, .STARTED, .IDLE, false, false⟩
      true false).outcome = .ioError := by
  have h := c10_thread_create_failure_goes_idle
    ⟨true, .STARTED, .IDLE, false, false⟩ (Or.inl rfl)
  exact ⟨h.1.2.1, h.2.1⟩
